import Mathlib

/-!
Verification development for the geo_service repository.

We give a shallow embedding of the service-layer cache / single-flight
coordinator (`geo_service/services/geo_service.py`), the Overpass query
adapter, bounding-box builder, nearest-distance engine and domain query
functions (`geo_service/repositories/implementations/geo_repo.py`), and the
request schemas and router defaults (`geo_service/schemas/geo_schemas.py`,
`geo_service/routes/geo_router.py`).

Modelling conventions:
* Python floats (coordinates, distances) are modelled exactly as rationals.
* `time.time()` values and TTL seconds are modelled as integers.
* The external collaborators (the Overpass provider, the geopy geodesic
  destination routine, and the GeoPandas planar reprojection/distance) are
  modelled as explicit function parameters, exactly as the specification
  treats them ("a collaborator").
* Fallible Python code is embedded with `Except`; asyncio cooperative
  concurrency is embedded as a small-step interleaving relation in which the
  code between two `await` suspension points is one atomic step.
-/

namespace GeoSvc

/-! ## Cache layer (`geo_service.py`)

A cache key is `(label, round(lat, precision), round(lng, precision), radius)`.
The cache maps keys to `(expiry, value)` pairs; an absent dict entry is
modelled as `none`. -/

/-- Python `round(x, precision)` on coordinates: round to `precision` decimal
places.  (Ties are irrelevant to every claim; we use mathematical rounding.) -/
def roundDec (precision : Nat) (x : ℚ) : ℚ :=
  ((round (x * (10 : ℚ) ^ precision) : ℤ) : ℚ) / (10 : ℚ) ^ precision

/-- Cache key `(label, r_lat, r_lng, radius)` as built in `_get_or_compute`. -/
abbrev CacheKey := String × ℚ × ℚ × Int

/-- The `self._cache` dict: key to `(expiry, value)`. -/
abbrev CacheMap (V : Type) := CacheKey → Option (Int × V)

/-- Key construction in `_get_or_compute`:
`cache_key = (label, round(lat, p), round(lng, p), radius)`. -/
def cacheKeyOf (precision : Nat) (label : String) (lat lng : ℚ) (radius : Int) :
    CacheKey :=
  (label, roundDec precision lat, roundDec precision lng, radius)

/-- `GeoService._cache_get`: returns the looked-up value and the cache after
the call (an expired entry is popped; `ttl <= 0` disables caching). -/
def cacheGet {V : Type} (ttl now : Int) (c : CacheMap V) (k : CacheKey) :
    Option V × CacheMap V :=
  if ttl ≤ 0 then (none, c)
  else
    match c k with
    | none => (none, c)
    | some (expiry, v) =>
        if expiry < now then (none, Function.update c k none) else (some v, c)

/-- `GeoService._cache_set`: stores `(now + ttl, value)` unless caching is
disabled. -/
def cacheSet {V : Type} (ttl now : Int) (c : CacheMap V) (k : CacheKey) (v : V) :
    CacheMap V :=
  if ttl ≤ 0 then c else Function.update c k (some (now + ttl, v))

/-- Observable outcome of one sequential run of `GeoService._get_or_compute`:
the returned value (or propagated producer exception), the cache afterwards,
whether the producer was invoked, and whether the per-key lock was acquired. -/
structure GetOrComputeRun (V E : Type) where
  result : Except E V
  cache : CacheMap V
  producerInvoked : Bool
  lockAcquired : Bool

/-- Sequential embedding of `GeoService._get_or_compute` (a single caller, so
the lock is immediately available on the slow path): fast-path lookup, then
lock acquisition, double-checked re-read, producer invocation and store.
A producer exception propagates (the `async with` block releases the lock)
and `_cache_set` is never reached. -/
def getOrCompute {V E : Type} (ttl : Int) (precision : Nat) (label : String)
    (lat lng : ℚ) (radius : Int) (producer : Except E V) (now : Int)
    (c : CacheMap V) : GetOrComputeRun V E :=
  let k := cacheKeyOf precision label lat lng radius
  let g1 := cacheGet ttl now c k
  match g1.1 with
  | some v => ⟨Except.ok v, g1.2, false, false⟩
  | none =>
      let g2 := cacheGet ttl now g1.2 k
      match g2.1 with
      | some v => ⟨Except.ok v, g2.2, false, true⟩
      | none =>
          match producer with
          | Except.error e => ⟨Except.error e, g2.2, true, true⟩
          | Except.ok v => ⟨Except.ok v, cacheSet ttl now g2.2 k v, true, true⟩

/-! ## Overpass query adapter (`geo_repo.py`)

The provider (`self.overpass.query`) is a collaborator: each issued query
either returns a list of OSM elements or raises an error carrying a message.
`_get_data_from_overpass_sync` issues at most two attempts. -/

/-- One OSM element returned by the Overpass provider: an abstract geometry
(`element.geometry()`) plus its tag dictionary (`element.tags()`). -/
structure OsmElement (G : Type) where
  geometry : G
  tags : List (String × String)
deriving DecidableEq

/-- Outcome of a single provider query attempt (`self.overpass.query`):
either the element list of the result, or a raised exception's message. -/
inductive QueryAttempt (G : Type) where
  | ok (elements : List (OsmElement G))
  | err (msg : String)
deriving DecidableEq

/-- Contiguous-sublist check on character lists. -/
def listContainsSub : List Char → List Char → Bool
  | hay, needle =>
    if needle.isPrefixOf hay then true
    else
      match hay with
      | [] => false
      | _ :: t => listContainsSub t needle

/-- Python `needle in haystack` on strings (substring containment). -/
def containsSub (haystack needle : String) : Bool :=
  listContainsSub haystack.data needle.data

/-- Python `str.lower()` (character-wise lowercasing). -/
def strLower (s : String) : String :=
  String.mk (s.data.map Char.toLower)

/-- The retry condition of `_get_data_from_overpass_sync`:
`"504" in error_str or "file exists" in error_str`, where
`error_str = str(e).lower()`. -/
def isTransientOverpassError (msg : String) : Bool :=
  containsSub (strLower msg) "504" || containsSub (strLower msg) "file exists"

/-- An entry of the `coords` list the adapter returns: either an extracted
geometry (`Geometry.from_geojson(element.geometry())`) or one of the Python
booleans the code appends (`True` = presence marker, `False` = absence /
terminal-failure marker). -/
inductive OverpassItem (G : Type) where
  | geom (g : G)
  | flag (b : Bool)
deriving DecidableEq

/-- Python `x is False` (identity with the `False` singleton). -/
def isPyFalse {G : Type} : OverpassItem G → Bool
  | OverpassItem.flag false => true
  | _ => false

/-- Python `element.tags().get(key)`. -/
def lookupTag {G : Type} (el : OsmElement G) (key : String) : Option String :=
  (el.tags.find? (fun p => p.1 = key)).map (fun p => p.2)

/-- The `additional_info` extraction of `_get_data_from_overpass_sync`
(only reached when `result.countElements() > 0`):
`protected_area` reads the first element's `protection_title` tag,
`forests` reads its `leaf_type` tag; a missing *or falsy (empty)* tag value
becomes `"Unknown"` (Python: `designation if designation else "Unknown"`). -/
def overpassInfo {G : Type} (additionalInfo : Option String)
    (elements : List (OsmElement G)) : String :=
  match additionalInfo with
  | none => ""
  | some ai =>
      if ai = "protected_area" then
        match elements with
        | [] => ""
        | el :: _ =>
            match lookupTag el "protection_title" with
            | some s => if s = "" then "Unknown" else s
            | none => "Unknown"
      else if ai = "forests" then
        match elements with
        | [] => ""
        | el :: _ =>
            match lookupTag el "leaf_type" with
            | some s => if s = "" then "Unknown" else s
            | none => "Unknown"
      else ""

/-- The post-query processing of `_get_data_from_overpass_sync`:
if `countElements() > 0`, `coords` is the geometry list (or `[True]` when no
geometry was requested) and `info` the extracted additional info; otherwise
`coords = [False]`, `info = ""`. -/
def processOverpassResult {G : Type} (includeGeometry : Bool)
    (additionalInfo : Option String) (elements : List (OsmElement G)) :
    List (OverpassItem G) × String :=
  if elements.length > 0 then
    ((if includeGeometry then elements.map (fun el => OverpassItem.geom el.geometry)
      else [OverpassItem.flag true]),
     overpassInfo additionalInfo elements)
  else ([OverpassItem.flag false], "")

/-- Observable outcome of `_get_data_from_overpass_sync`: the returned
`(coords, info)` pair, the number of provider queries issued, and the total
seconds slept in backoff.  The return type has no error alternative: the
`except` clause catches every provider exception, so the adapter never
propagates one. -/
structure OverpassRun (G : Type) where
  coords : List (OverpassItem G)
  info : String
  queryCount : Nat
  sleptSeconds : Nat
deriving DecidableEq

/-- Embedding of the retry loop of `_get_data_from_overpass_sync`, with the
two possible provider attempts as parameters.  Attempt 1 failing with a
message containing `"504"` or `"file exists"` (lowercased) sleeps 2 seconds
and retries exactly once; any other first failure, or any failure of the
retry, returns the terminal no-elements result `([False], "")`. -/
def getDataFromOverpassSync {G : Type} (attempt1 attempt2 : QueryAttempt G)
    (includeGeometry : Bool) (additionalInfo : Option String) : OverpassRun G :=
  match attempt1 with
  | QueryAttempt.ok elements =>
      let pr := processOverpassResult includeGeometry additionalInfo elements
      ⟨pr.1, pr.2, 1, 0⟩
  | QueryAttempt.err msg =>
      if isTransientOverpassError msg then
        match attempt2 with
        | QueryAttempt.ok elements =>
            let pr := processOverpassResult includeGeometry additionalInfo elements
            ⟨pr.1, pr.2, 2, 2⟩
        | QueryAttempt.err _ => ⟨[OverpassItem.flag false], "", 2, 2⟩
      else ⟨[OverpassItem.flag false], "", 1, 0⟩

/-- The parameters `_get_data_from_overpass` hands to `overpassQueryBuilder`
for one provider query (the bbox is `_create_bounding_box lat lng radius`;
plain-string element types / selectors are modelled as singleton lists). -/
structure QuerySpec where
  lat : ℚ
  lng : ℚ
  radius : Int
  elementType : List String
  selector : List String
  includeGeometry : Bool
  elLimit : Bool
deriving DecidableEq

/-- A provider behaviour: for every issued query, the outcomes of the (at
most two) attempts the adapter may make. -/
def Provider (G : Type) := QuerySpec → QueryAttempt G × QueryAttempt G

/-- `_get_data_from_overpass` (async wrapper + lru-cached indirection both
preserve the value): run the sync adapter against the provider's attempts
for this query. -/
def getDataFromOverpass {G : Type} (provider : Provider G) (spec : QuerySpec)
    (additionalInfo : Option String) : OverpassRun G :=
  getDataFromOverpassSync (provider spec).1 (provider spec).2
    spec.includeGeometry additionalInfo

/-! ## Nearest-distance engine (`_calculate_nearest_distance_sync`)

The reprojection EPSG:4326 to EPSG:3857 and the planar Euclidean metric live
inside the GeoPandas collaborator; we model them as a distance function
`dist : α → ℚ` giving the planar distance from the reprojected reference
point to each reprojected candidate.  `gpd.sjoin_nearest` on a singleton
left frame returns one row per equidistant nearest candidate, with the
distance column; `idxmin` then selects the first row achieving the column
minimum and the code returns that row's distance. -/

/-- Rows of `sjoin_nearest(poi_gdf, geom_gdf, distance_col="distance")` for a
singleton reference point: every candidate achieving the minimal distance,
as `(index, distance)`. -/
def sjoinNearestRows {α : Type} (dist : α → ℚ) (cs : List α) : List (Nat × ℚ) :=
  match (cs.map dist).min? with
  | none => []
  | some m => ((cs.map dist).enum).filter (fun r => r.2 = m)

/-- Pandas `idxmin` followed by `loc`: the first row of the frame whose
distance column is minimal (`none` on an empty frame). -/
def idxminRow : List (Nat × ℚ) → Option (Nat × ℚ)
  | [] => none
  | r :: rs => some (rs.foldl (fun best x => if x.2 < best.2 then x else best) r)

/-- `_calculate_nearest_distance_sync`: `min_distance` starts at `0.0`; if
the join result is non-empty it becomes the `idxmin` row's distance,
otherwise `0.0` is returned as the no-candidates sentinel. -/
def calculateNearestDistanceSync {α : Type} (dist : α → ℚ) (cs : List α) : ℚ :=
  match idxminRow (sjoinNearestRows dist cs) with
  | none => 0
  | some r => r.2

/-! ## Bounding-box builder (`_create_bounding_box`)

The geopy geodesic destination routine is a collaborator:
`dest km (lat, lng) bearing` is the point reached travelling `km` kilometers
from `(lat, lng)` at the given bearing on the WGS84 ellipsoid. -/

/-- The distance clamp: `distance_km = distance / 1000.0`, limited to 5 km. -/
def clampKmFromMeters (distance : ℚ) : ℚ :=
  let km := distance / 1000
  if km > 5 then 5 else km

/-- `(min_lat, min_lon, max_lat, max_lon)` as returned by
`_create_bounding_box`. -/
structure BoundingBox where
  min_lat : ℚ
  min_lon : ℚ
  max_lat : ℚ
  max_lon : ℚ
deriving DecidableEq

/-- `_create_bounding_box`: clamp the radius, project the center
geodesically at bearings 0 / 180 / 90 / 270 and read the box edges off the
four destination points. -/
def createBoundingBox (dest : ℚ → ℚ × ℚ → ℚ → ℚ × ℚ) (lat lng distance : ℚ) :
    BoundingBox :=
  let km := clampKmFromMeters distance
  let north := dest km (lat, lng) 0
  let south := dest km (lat, lng) 180
  let east := dest km (lat, lng) 90
  let west := dest km (lat, lng) 270
  ⟨south.1, west.2, north.1, east.2⟩

/-- A flat destination model instantiating the geodesic collaborator in
concrete examples: bearing 0/180 moves latitude by ±km, bearing 90/270
moves longitude by ±km. -/
def destFlat (km : ℚ) (p : ℚ × ℚ) (bearing : ℚ) : ℚ × ℚ :=
  if bearing = 0 then (p.1 + km, p.2)
  else if bearing = 180 then (p.1 - km, p.2)
  else if bearing = 90 then (p.1, p.2 + km)
  else (p.1, p.2 - km)

/-! ## Domain query functions (`geo_repo.py`) -/

/-- Result schema `ResultPower`. -/
structure ResultPower where
  nearest_substation_distance_m : ℚ
  nearest_powerline_distance_m : ℚ
deriving DecidableEq

/-- Result schema `ResultProtection`. -/
structure ResultProtection where
  in_protected_area : Bool
  designation : Option String
deriving DecidableEq

/-- Result schema `ResultForest`. -/
structure ResultForest where
  type : Option String
  in_forest : Bool
deriving DecidableEq

/-- The substation query issued by `get_power`: element type `node`, selector
`"power"="substation"`, geometry included — and a hard-coded 10000 m radius,
independent of the caller's requested radius. -/
def substationQuerySpec (lat lng : ℚ) : QuerySpec :=
  ⟨lat, lng, 10000, ["node"], ["\"power\"=\"substation\""], true, false⟩

/-- The powerline query issued by `get_power`: element type `way`, selectors
`"power"="line"` / `"line"="busbar"`, geometry included, caller radius. -/
def powerlineQuerySpec (lat lng : ℚ) (radius : Int) : QuerySpec :=
  ⟨lat, lng, radius, ["way"], ["\"power\"=\"line\"", "\"line\"=\"busbar\""],
   true, false⟩

/-- `GeoRepo.get_power`, additionally returning the list of query specs it
issued to the provider.  The guards
`if substation_coords and substation_coords is not False` compare a *list*
with `False`, so they reduce to non-emptiness of the coords list; the
adapter's coords list is in fact never empty, so the `zero_distance`
fallback arm (returning `0.0`) is kept but unreachable.  No radius cutoff is
applied anywhere: the computed nearest distances are returned as-is. -/
def getPower {G : Type} (provider : Provider G)
    (dist : ℚ → ℚ → OverpassItem G → ℚ) (lat lng : ℚ) (radius : Int) :
    ResultPower × List QuerySpec :=
  let subSpec := substationQuerySpec lat lng
  let plSpec := powerlineQuerySpec lat lng radius
  let subRun := getDataFromOverpass provider subSpec none
  let plRun := getDataFromOverpass provider plSpec none
  let subDist :=
    if subRun.coords.isEmpty then 0
    else calculateNearestDistanceSync (dist lat lng) subRun.coords
  let plDist :=
    if plRun.coords.isEmpty then 0
    else calculateNearestDistanceSync (dist lat lng) plRun.coords
  (⟨subDist, plDist⟩, [subSpec, plSpec])

/-- The query issued by `get_protected_areas`: way/relation,
`"boundary"="protected_area"`, no geometry, result capped to one element. -/
def protectionQuerySpec (lat lng : ℚ) (radius : Int) : QuerySpec :=
  ⟨lat, lng, radius, ["way", "relation"], ["\"boundary\"=\"protected_area\""],
   false, true⟩

/-- `GeoRepo.get_protected_areas`: run the protection query with
`additional_info="protected_area"`; if the coords list is non-empty and its
head is not the Python `False` marker, report presence with the extracted
designation, else `(False, None)`. -/
def getProtectedAreas {G : Type} (provider : Provider G) (lat lng : ℚ)
    (radius : Int) : ResultProtection :=
  let run := getDataFromOverpass provider (protectionQuerySpec lat lng radius)
    (some "protected_area")
  match run.coords with
  | [] => ⟨false, none⟩
  | c :: _ =>
      if isPyFalse c then ⟨false, none⟩
      else ⟨true, some run.info⟩

/-- The query issued by `get_forest`: node/relation/way,
`"natural"="wood"` / `"landuse"="forest"`, no geometry, capped to one. -/
def forestQuerySpec (lat lng : ℚ) (radius : Int) : QuerySpec :=
  ⟨lat, lng, radius, ["node", "relation", "way"],
   ["\"natural\"=\"wood\"", "\"landuse\"=\"forest\""], false, true⟩

/-- `GeoRepo.get_forest`: run the forest query with
`additional_info="forests"`; same presence guard as `get_protected_areas`,
reporting the extracted leaf type, else `(in_forest=False, type=None)`. -/
def getForest {G : Type} (provider : Provider G) (lat lng : ℚ) (radius : Int) :
    ResultForest :=
  let run := getDataFromOverpass provider (forestQuerySpec lat lng radius)
    (some "forests")
  match run.coords with
  | [] => ⟨none, false⟩
  | c :: _ =>
      if isPyFalse c then ⟨none, false⟩
      else ⟨some run.info, true⟩

/-! ## Request schema and router (`geo_schemas.py`, `geo_router.py`) -/

/-- Pydantic model `GeoCond`: `lat: float`, `lng: float`,
`radius: Optional[int] = 5000`. -/
structure GeoCond where
  lat : ℚ
  lng : ℚ
  radius : Option Int
deriving DecidableEq

/-- Construction `GeoCond(lat=lat, lng=lng)` with the radius field omitted:
pydantic fills in the declared default `5000`. -/
def geoCondOmittedRadius (lat lng : ℚ) : GeoCond :=
  ⟨lat, lng, some 5000⟩

/-- Every geo endpoint of `geo_router.py` (`/geo/power`, `/geo/protection`,
`/geo/forest`, `/geo/builtup`) builds its `GeoCond` as
`GeoCond(lat=lat, lng=lng)` — the radius query parameter does not even
exist on the route, so the schema default is always used. -/
def geoEndpointCond (lat lng : ℚ) : GeoCond :=
  geoCondOmittedRadius lat lng

/-- The radius with which the service layer executes the query for a given
request condition (`req.radius` is handed verbatim to `_get_or_compute` and
to the repository call). -/
def serviceQueryRadius (req : GeoCond) : Option Int :=
  req.radius

/-! ## Concurrent single-flight model (`_get_or_compute` under asyncio)

Between two `await` suspension points asyncio runs code atomically, so we
embed the coroutine as an automaton whose steps are its atomic blocks:

* from the start, a caller runs the fast-path lookup and — when the lock is
  free, since `Lock.acquire` does not suspend then — continues through the
  acquire and the double-checked re-read into the producer call, all in one
  atomic block; when the lock is held it suspends in the acquire;
* a suspended caller resumes once the lock is free, runs the re-read and
  either returns the cached value (releasing the lock) or invokes the
  producer;
* the producer's completion is a separate step: `_cache_set`, return, and
  lock release.

The scheduler is a nondeterministic interleaving over these steps.  All K
callers address the same key `k`; logical time is frozen at `now` for the
burst (no step sleeps).  Producer invocation i returns `vs i`. -/

/-- The phase of one caller's coroutine. -/
inductive CallerPhase (V : Type) where
  | start
  | waiting
  | producing (v : V)
  | done (v : V)
deriving DecidableEq

/-- Global state: the cache dict, the per-key lock states, each caller's
phase, and how many producer invocations have started. -/
structure SFState (V : Type) (K : Nat) where
  cache : CacheMap V
  locked : CacheKey → Bool
  callers : Fin K → CallerPhase V
  prodCount : Nat

/-- One atomic step of the interleaving semantics of `_get_or_compute`. -/
inductive SFStep {V : Type} {K : Nat} (ttl now : Int) (k : CacheKey)
    (vs : Nat → V) : SFState V K → SFState V K → Prop where
  | startHit (s : SFState V K) (i : Fin K) (v : V)
      (hph : s.callers i = CallerPhase.start)
      (hget : (cacheGet ttl now s.cache k).1 = some v) :
      SFStep ttl now k vs s
        { s with cache := (cacheGet ttl now s.cache k).2,
                 callers := Function.update s.callers i (CallerPhase.done v) }
  | startWait (s : SFState V K) (i : Fin K)
      (hph : s.callers i = CallerPhase.start)
      (hget : (cacheGet ttl now s.cache k).1 = none)
      (hlock : s.locked k = true) :
      SFStep ttl now k vs s
        { s with cache := (cacheGet ttl now s.cache k).2,
                 callers := Function.update s.callers i CallerPhase.waiting }
  | startProduce (s : SFState V K) (i : Fin K)
      (hph : s.callers i = CallerPhase.start)
      (hget : (cacheGet ttl now s.cache k).1 = none)
      (hlock : s.locked k = false)
      (hget2 : (cacheGet ttl now (cacheGet ttl now s.cache k).2 k).1 = none) :
      SFStep ttl now k vs s
        { s with cache := (cacheGet ttl now (cacheGet ttl now s.cache k).2 k).2,
                 locked := Function.update s.locked k true,
                 callers := Function.update s.callers i
                   (CallerPhase.producing (vs s.prodCount)),
                 prodCount := s.prodCount + 1 }
  | waitHit (s : SFState V K) (i : Fin K) (v : V)
      (hph : s.callers i = CallerPhase.waiting)
      (hlock : s.locked k = false)
      (hget : (cacheGet ttl now s.cache k).1 = some v) :
      SFStep ttl now k vs s
        { s with cache := (cacheGet ttl now s.cache k).2,
                 callers := Function.update s.callers i (CallerPhase.done v) }
  | waitProduce (s : SFState V K) (i : Fin K)
      (hph : s.callers i = CallerPhase.waiting)
      (hlock : s.locked k = false)
      (hget : (cacheGet ttl now s.cache k).1 = none) :
      SFStep ttl now k vs s
        { s with cache := (cacheGet ttl now s.cache k).2,
                 locked := Function.update s.locked k true,
                 callers := Function.update s.callers i
                   (CallerPhase.producing (vs s.prodCount)),
                 prodCount := s.prodCount + 1 }
  | produceDone (s : SFState V K) (i : Fin K) (v : V)
      (hph : s.callers i = CallerPhase.producing v) :
      SFStep ttl now k vs s
        { s with cache := cacheSet ttl now s.cache k v,
                 locked := Function.update s.locked k false,
                 callers := Function.update s.callers i (CallerPhase.done v) }

/-- Initial state of a burst of K concurrent callers: some cache contents
`c0` and lock states `l0`, every caller at the start, no producer started. -/
def sfInit {V : Type} (c0 : CacheMap V) (l0 : CacheKey → Bool) (K : Nat) :
    SFState V K :=
  { cache := c0, locked := l0, callers := fun _ => CallerPhase.start,
    prodCount := 0 }

/-- Reachability under the interleaving semantics. -/
def SFReach {V : Type} {K : Nat} (ttl now : Int) (k : CacheKey) (vs : Nat → V)
    (s t : SFState V K) : Prop :=
  Relation.ReflTransGen (SFStep ttl now k vs) s t

/-- Phase A of the single-flight protocol at key `k`: nothing has happened —
no producer started, no live entry, lock free, every caller at the start. -/
def SFPhaseA {V : Type} {K : Nat} (ttl now : Int) (k : CacheKey)
    (s : SFState V K) : Prop :=
  s.prodCount = 0 ∧ (cacheGet ttl now s.cache k).1 = none ∧
  s.locked k = false ∧ ∀ i, s.callers i = CallerPhase.start

/-- Phase B: exactly one producer invocation has started and is still
running under the lock; the cache is still empty; every other caller is at
the start or parked on the lock. -/
def SFPhaseB {V : Type} {K : Nat} (ttl now : Int) (k : CacheKey)
    (vs : Nat → V) (s : SFState V K) : Prop :=
  s.prodCount = 1 ∧ s.locked k = true ∧
  (cacheGet ttl now s.cache k).1 = none ∧
  ∃ j, s.callers j = CallerPhase.producing (vs 0) ∧
    ∀ i, i ≠ j → (s.callers i = CallerPhase.start ∨
      s.callers i = CallerPhase.waiting)

/-- Phase C: the single production has finished and is cached; the lock is
free; every caller is at the start, parked, or done with that value. -/
def SFPhaseC {V : Type} {K : Nat} (ttl now : Int) (k : CacheKey)
    (vs : Nat → V) (s : SFState V K) : Prop :=
  s.prodCount = 1 ∧ s.locked k = false ∧
  (cacheGet ttl now s.cache k).1 = some (vs 0) ∧
  ∀ i, s.callers i = CallerPhase.start ∨ s.callers i = CallerPhase.waiting ∨
    s.callers i = CallerPhase.done (vs 0)

/-- The single-flight invariant: the system is always in phase A, B or C. -/
def SFInv {V : Type} {K : Nat} (ttl now : Int) (k : CacheKey) (vs : Nat → V)
    (s : SFState V K) : Prop :=
  SFPhaseA ttl now k s ∨ SFPhaseB ttl now k vs s ∨ SFPhaseC ttl now k vs s

/-- Concrete key for the single-flight example run. -/
def sfWKey : CacheKey := ("power", 0, 0, 5000)

/-- Example run, initial state: one caller, empty cache, free lock. -/
def sfWInit : SFState ℕ 1 := sfInit (fun _ => none) (fun _ => false) 1

/-- Example run after the caller has entered the producer. -/
def sfWMid : SFState ℕ 1 :=
  { cache := (cacheGet 600 0 (cacheGet 600 0
      (fun _ => none : CacheMap ℕ) sfWKey).2 sfWKey).2,
    locked := Function.update (fun _ => false) sfWKey true,
    callers := Function.update (fun _ => CallerPhase.start) 0
      (CallerPhase.producing 42),
    prodCount := 1 }

/-- Example run after the producer finished: value cached, caller done. -/
def sfWFinal : SFState ℕ 1 :=
  { cache := cacheSet 600 0 sfWMid.cache sfWKey 42,
    locked := Function.update sfWMid.locked sfWKey false,
    callers := Function.update sfWMid.callers 0 (CallerPhase.done 42),
    prodCount := 1 }

/-! ## Helper lemmas -/

/-- The running fold of `idxminRow` returns one of its inputs. -/
theorem idxmin_fold_mem (r : Nat × ℚ) (rs : List (Nat × ℚ)) :
    rs.foldl (fun best x => if x.2 < best.2 then x else best) r ∈ r :: rs := by
  induction rs generalizing r with
  | nil => simp
  | cons x xs ih =>
    simp only [List.foldl_cons]
    rcases List.mem_cons.mp (ih (if x.2 < r.2 then x else r)) with h1 | h1
    · rw [h1]
      by_cases hx : x.2 < r.2
      · rw [if_pos hx]
        exact List.mem_cons_of_mem r (List.mem_cons_self x xs)
      · rw [if_neg hx]
        exact List.mem_cons_self r (x :: xs)
    · exact List.mem_cons_of_mem r (List.mem_cons_of_mem x h1)

/-- `idxminRow` returns a row of the frame. -/
theorem idxminRow_mem {l : List (Nat × ℚ)} {r : Nat × ℚ}
    (h : idxminRow l = some r) : r ∈ l := by
  match l with
  | [] => simp [idxminRow] at h
  | a :: rs =>
    simp only [idxminRow, Option.some.injEq] at h
    rw [← h]
    exact idxmin_fold_mem a rs

/-- Key property of the nearest-distance engine: when the distance column
has minimum `m`, the code's join-then-idxmin pipeline returns exactly `m`. -/
theorem calculateNearest_eq_min {α : Type} (dist : α → ℚ) (cs : List α)
    (m : ℚ) (hm : (cs.map dist).min? = some m) :
    calculateNearestDistanceSync dist cs = m := by
  have hmem : m ∈ cs.map dist := List.min?_mem (fun a b => min_choice a b) hm
  have hmem2 : ∃ x ∈ (cs.map dist).enum, x.2 = m := by
    have h1 : m ∈ (cs.map dist).enum.map Prod.snd := by
      rw [List.enum_map_snd]; exact hmem
    rcases List.mem_map.mp h1 with ⟨x, hx, hxe⟩
    exact ⟨x, hx, hxe⟩
  have hrows : sjoinNearestRows dist cs =
      ((cs.map dist).enum).filter (fun r => r.2 = m) := by
    unfold sjoinNearestRows
    rw [hm]
  have hne : sjoinNearestRows dist cs ≠ [] := by
    rw [hrows]
    intro hcon
    rcases hmem2 with ⟨x, hx, hxe⟩
    have := List.filter_eq_nil_iff.mp hcon x hx
    simp [hxe] at this
  unfold calculateNearestDistanceSync
  cases hrow : idxminRow (sjoinNearestRows dist cs) with
  | none =>
      cases hl : sjoinNearestRows dist cs with
      | nil => exact absurd hl hne
      | cons a rs => rw [hl] at hrow; simp [idxminRow] at hrow
  | some r =>
      have hrmem := idxminRow_mem hrow
      rw [hrows] at hrmem
      have := (List.mem_filter.mp hrmem).2
      simpa using this

/-- A second `_cache_get` right after a missing `_cache_get` still misses
(the first one already popped any expired entry). -/
theorem cacheGet_none_stable {V : Type} {ttl now : Int} {c : CacheMap V}
    {k : CacheKey} (h : (cacheGet ttl now c k).1 = none) :
    (cacheGet ttl now (cacheGet ttl now c k).2 k).1 = none := by
  unfold cacheGet at *
  by_cases httl : ttl ≤ 0
  · simp [httl]
  · simp only [if_neg httl] at *
    cases hck : c k with
    | none => simp [hck]
    | some ev =>
        rcases ev with ⟨e, v⟩
        by_cases he : e < now
        · simp [hck, he, Function.update_same]
        · simp [hck, he] at h

/-- A hitting `_cache_get` leaves the cache unchanged. -/
theorem cacheGet_some_eq {V : Type} {ttl now : Int} {c : CacheMap V}
    {k : CacheKey} {v : V} (h : (cacheGet ttl now c k).1 = some v) :
    (cacheGet ttl now c k).2 = c := by
  unfold cacheGet at *
  by_cases httl : ttl ≤ 0
  · simp [httl]
  · simp only [if_neg httl] at *
    cases hck : c k with
    | none => simp [hck]
    | some ev =>
        rcases ev with ⟨e, v0⟩
        by_cases he : e < now
        · simp [hck, he] at h
        · simp [hck, he]

/-- A `_cache_get` at the same instant as a `_cache_set` hits (caching
enabled): the stored expiry `now + ttl` is not in the past. -/
theorem cacheGet_cacheSet_same {V : Type} {ttl now : Int} {c : CacheMap V}
    {k : CacheKey} {v : V} (httl : 0 < ttl) :
    (cacheGet ttl now (cacheSet ttl now c k v) k).1 = some v := by
  unfold cacheGet cacheSet
  have h1 : ¬ ttl ≤ 0 := by omega
  have h2 : ¬ now + ttl < now := by omega
  simp [h1, h2, Function.update_same]

/-! ## Claims -/

/-- C4: for a non-empty candidate set the nearest-distance engine returns
the minimum of the pairwise planar distances (the distances after
reprojecting everything from EPSG:4326 into EPSG:3857, supplied by the
GeoPandas collaborator as `dist`, modelled exactly over ℚ so no
floating-point tolerance is needed); for the empty candidate sequence it
returns the sentinel `0.0` (and the code yields no info value). -/
theorem nearestDistance_min_or_sentinel {α : Type} (dist : α → ℚ)
    (cs : List α) (m : ℚ) :
    ((cs.map dist).min? = some m → calculateNearestDistanceSync dist cs = m) ∧
    (cs = [] → calculateNearestDistanceSync dist cs = 0) := by
  constructor
  · exact calculateNearest_eq_min dist cs m
  · intro h
    subst h
    rfl

/-- Witness for C4 at a concrete candidate list. -/
theorem nearestDistance_min_or_sentinel_witness :
    (([(3 : ℚ), 7]).map id).min? = some 3 ∧
    calculateNearestDistanceSync (id : ℚ → ℚ) [3, 7] = 3 :=
  ⟨by decide, (nearestDistance_min_or_sentinel id [3, 7] 3).1 (by decide)⟩

/-- C10: a negative presence flag is never accompanied by a non-null tag
value — `get_protected_areas` returning `in_protected_area = false` has
`designation = None`, and `get_forest` returning `in_forest = false` has
`type = None`, for every provider behaviour and every input. -/
theorem negativeFlag_null_tag {G : Type} (provider : Provider G)
    (lat lng : ℚ) (radius : Int) :
    ((getProtectedAreas provider lat lng radius).in_protected_area = false →
      (getProtectedAreas provider lat lng radius).designation = none) ∧
    ((getForest provider lat lng radius).in_forest = false →
      (getForest provider lat lng radius).type = none) := by
  constructor
  · intro h
    unfold getProtectedAreas at h ⊢
    rcases hc : (getDataFromOverpass provider (protectionQuerySpec lat lng radius)
        (some "protected_area")).coords with _ | ⟨c, rest⟩
    · simp [hc]
    · simp only [hc] at h ⊢
      by_cases hp : isPyFalse c
      · simp [hp]
      · simp [hp] at h
  · intro h
    unfold getForest at h ⊢
    rcases hc : (getDataFromOverpass provider (forestQuerySpec lat lng radius)
        (some "forests")).coords with _ | ⟨c, rest⟩
    · simp [hc]
    · simp only [hc] at h ⊢
      by_cases hp : isPyFalse c
      · simp [hp]
      · simp [hp] at h

/-- Witness for C10: a provider that finds nothing yields the negative flag
with a null tag, for both domains. -/
theorem negativeFlag_null_tag_witness :
    (getProtectedAreas (G := Unit)
        (fun _ => (QueryAttempt.ok [], QueryAttempt.ok [])) 1 2 5000).designation
      = none ∧
    (getForest (G := Unit)
        (fun _ => (QueryAttempt.ok [], QueryAttempt.ok [])) 1 2 5000).type
      = none :=
  ⟨(negativeFlag_null_tag (fun _ => (QueryAttempt.ok [], QueryAttempt.ok []))
      1 2 5000).1 (by decide),
   (negativeFlag_null_tag (fun _ => (QueryAttempt.ok [], QueryAttempt.ok []))
      1 2 5000).2 (by decide)⟩

/-- C8: the router builds every geo request's `GeoCond` without a radius, so
the schema default applies and the query executes with radius 5000. -/
theorem omittedRadius_default_5000 (lat lng : ℚ) :
    (geoCondOmittedRadius lat lng).radius = some 5000 ∧
    serviceQueryRadius (geoEndpointCond lat lng) = some 5000 :=
  ⟨rfl, rfl⟩

/-- C3: retry policy of the Overpass adapter.  If the first attempt raises
an error whose lowercased message contains `"504"` or `"file exists"`, the
adapter sleeps the fixed 2-second backoff and issues exactly one more
provider query; any other first error yields the terminal no-elements
result (`coords = [False]`, `info = ""`, the same encoding the success path
uses for zero elements) immediately, and a failure of the retry yields that
same terminal result.  The adapter's return type has no error alternative:
a provider failure is never propagated as a thrown error. -/
theorem overpassRetryPolicy {G : Type} (msg : String) (a2 : QueryAttempt G)
    (includeGeometry : Bool) (additionalInfo : Option String) :
    ((containsSub (strLower msg) "504" = true ∨
      containsSub (strLower msg) "file exists" = true) →
      (getDataFromOverpassSync (QueryAttempt.err msg) a2 includeGeometry
        additionalInfo).queryCount = 2 ∧
      (getDataFromOverpassSync (QueryAttempt.err msg) a2 includeGeometry
        additionalInfo).sleptSeconds = 2) ∧
    ((containsSub (strLower msg) "504" = false ∧
      containsSub (strLower msg) "file exists" = false) →
      getDataFromOverpassSync (QueryAttempt.err msg) a2 includeGeometry
        additionalInfo = ⟨[OverpassItem.flag false], "", 1, 0⟩) ∧
    (∀ m2, a2 = QueryAttempt.err m2 →
      (getDataFromOverpassSync (QueryAttempt.err msg) a2 includeGeometry
        additionalInfo).coords = [OverpassItem.flag false] ∧
      (getDataFromOverpassSync (QueryAttempt.err msg) a2 includeGeometry
        additionalInfo).info = "") := by
  refine ⟨?_, ?_, ?_⟩
  · intro h
    have ht : isTransientOverpassError msg = true := by
      unfold isTransientOverpassError
      rcases h with h | h <;> simp [h]
    simp only [getDataFromOverpassSync, ht, if_true]
    cases a2 <;> simp
  · intro h
    have ht : isTransientOverpassError msg = false := by
      unfold isTransientOverpassError
      simp [h.1, h.2]
    simp only [getDataFromOverpassSync, ht]
    simp
  · intro m2 hm2
    subst hm2
    by_cases ht : isTransientOverpassError msg <;>
      simp only [getDataFromOverpassSync, ht] <;> simp

/-- Witness for C3: a transient first failure (`"504"`) retries once with
the 2-second backoff, and a failing retry degrades to the terminal empty
result. -/
theorem overpassRetryPolicy_witness :
    (getDataFromOverpassSync (G := Unit) (QueryAttempt.err "504")
      (QueryAttempt.err "boom") true none).queryCount = 2 ∧
    (getDataFromOverpassSync (G := Unit) (QueryAttempt.err "504")
      (QueryAttempt.err "boom") true none).sleptSeconds = 2 ∧
    (getDataFromOverpassSync (G := Unit) (QueryAttempt.err "504")
      (QueryAttempt.err "boom") true none).coords = [OverpassItem.flag false] ∧
    (getDataFromOverpassSync (G := Unit) (QueryAttempt.err "504")
      (QueryAttempt.err "boom") true none).info = "" :=
  ⟨((overpassRetryPolicy "504" (QueryAttempt.err "boom") true none).1
      (Or.inl (by decide))).1,
   ((overpassRetryPolicy "504" (QueryAttempt.err "boom") true none).1
      (Or.inl (by decide))).2,
   ((overpassRetryPolicy "504" (QueryAttempt.err "boom") true none).2.2
      "boom" rfl).1,
   ((overpassRetryPolicy "504" (QueryAttempt.err "boom") true none).2.2
      "boom" rfl).2⟩

/-- C7 as frozen is falsified by an element whose protection tag is present
but empty: Python's `designation if designation else "Unknown"` maps the
present value `""` to `"Unknown"`, while the claim promises the tag's value
whenever the tag is not absent. -/
theorem protectionDesignation_counterexample :
    lookupTag (⟨(), [("protection_title", "")]⟩ : OsmElement Unit)
      "protection_title" = some "" ∧
    (getProtectedAreas (G := Unit)
      (fun _ => (QueryAttempt.ok [⟨(), [("protection_title", "")]⟩],
                 QueryAttempt.ok [])) 1 2 5000).designation = some "Unknown" ∧
    (some "Unknown" : Option String) ≠ some "" := by
  refine ⟨by decide, by decide, by decide⟩

/-- C7 amended: if the protection query finds at least one element the
result has `in_protected_area = true` and `designation` equal to the first
element's `protection_title` tag value when that value is present and
non-empty, and `"Unknown"` when the tag is absent *or its value is the
empty string*; if no element is found the result is
`(in_protected_area = false, designation = None)`. -/
theorem protectionDesignation {G : Type} (provider : Provider G)
    (lat lng : ℚ) (radius : Int) (es : List (OsmElement G))
    (a2 : QueryAttempt G)
    (hprov : provider (protectionQuerySpec lat lng radius) =
      (QueryAttempt.ok es, a2)) :
    (es = [] → getProtectedAreas provider lat lng radius =
      ⟨false, none⟩) ∧
    (∀ el rest, es = el :: rest →
      (getProtectedAreas provider lat lng radius).in_protected_area = true ∧
      ((∃ s, lookupTag el "protection_title" = some s ∧ s ≠ "" ∧
          (getProtectedAreas provider lat lng radius).designation = some s) ∨
       ((lookupTag el "protection_title" = none ∨
         lookupTag el "protection_title" = some "") ∧
          (getProtectedAreas provider lat lng radius).designation =
            some "Unknown"))) := by
  constructor
  · intro h
    subst h
    unfold getProtectedAreas getDataFromOverpass
    rw [hprov]
    rfl
  · intro el rest h
    subst h
    have hproc : processOverpassResult (G := G) false (some "protected_area")
        (el :: rest) =
        ([OverpassItem.flag true],
          overpassInfo (some "protected_area") (el :: rest)) := by
      unfold processOverpassResult
      rw [if_pos (by simp : (el :: rest).length > 0)]
      simp
    have hrun : getDataFromOverpass provider (protectionQuerySpec lat lng radius)
        (some "protected_area") =
        ⟨[OverpassItem.flag true],
          overpassInfo (some "protected_area") (el :: rest), 1, 0⟩ := by
      unfold getDataFromOverpass
      rw [hprov]
      show getDataFromOverpassSync (QueryAttempt.ok (el :: rest)) a2 false
        (some "protected_area") = _
      simp only [getDataFromOverpassSync]
      rw [hproc]
    have hres : getProtectedAreas provider lat lng radius =
        ⟨true, some (overpassInfo (some "protected_area") (el :: rest))⟩ := by
      unfold getProtectedAreas
      rw [hrun]
      rfl
    refine ⟨by rw [hres], ?_⟩
    cases hl : lookupTag el "protection_title" with
    | none =>
        refine Or.inr ⟨Or.inl rfl, ?_⟩
        rw [hres]
        simp [overpassInfo, hl]
    | some s =>
        by_cases hs : s = ""
        · subst hs
          refine Or.inr ⟨Or.inr rfl, ?_⟩
          rw [hres]
          simp [overpassInfo, hl]
        · refine Or.inl ⟨s, rfl, hs, ?_⟩
          rw [hres]
          simp [overpassInfo, hl, hs]

/-- Witness for C7 (amended): a found element carrying
`protection_title = "NSG"` yields presence with designation `"NSG"`. -/
theorem protectionDesignation_witness :
    (getProtectedAreas (G := Unit)
      (fun _ => (QueryAttempt.ok [⟨(), [("protection_title", "NSG")]⟩],
                 QueryAttempt.ok [])) 1 2 5000).in_protected_area = true ∧
    (getProtectedAreas (G := Unit)
      (fun _ => (QueryAttempt.ok [⟨(), [("protection_title", "NSG")]⟩],
                 QueryAttempt.ok [])) 1 2 5000).designation = some "NSG" := by
  have hEval : lookupTag (⟨(), [("protection_title", "NSG")]⟩ : OsmElement Unit)
      "protection_title" = some "NSG" := by decide
  have h := (protectionDesignation (G := Unit)
    (fun _ => (QueryAttempt.ok [⟨(), [("protection_title", "NSG")]⟩],
               QueryAttempt.ok [])) 1 2 5000
    [⟨(), [("protection_title", "NSG")]⟩] (QueryAttempt.ok [])
    rfl).2 ⟨(), [("protection_title", "NSG")]⟩ [] rfl
  refine ⟨h.1, ?_⟩
  rcases h.2 with ⟨s, hs, _, hd⟩ | ⟨hl, _⟩
  · have hss : s = "NSG" := Option.some.inj (hs.symm.trans hEval)
    rw [hss] at hd
    exact hd
  · exfalso
    rcases hl with hl | hl
    · exact Option.noConfusion (hl.symm.trans hEval)
    · exact absurd (Option.some.inj (hl.symm.trans hEval)) (by decide)

/-- C5 as frozen is falsified on the post-filter half: with a requested
radius of 5000 m and a single substation whose planar distance is 8000 m,
`get_power` returns 8000.0 — a distance not below the requested radius and
not the 0.0 "not found" sentinel.  No radius cutoff exists in the code. -/
theorem getPower_counterexample :
    (getPower (G := Unit)
      (fun _ => (QueryAttempt.ok [⟨(), []⟩], QueryAttempt.ok []))
      (fun _ _ _ => 8000) 1 2 5000).1.nearest_substation_distance_m = 8000 ∧
    ¬ ((8000 : ℚ) < 5000) ∧ (8000 : ℚ) ≠ 0 := by
  refine ⟨by decide, by decide, by decide⟩

/-- C5 amended: the substation query is always issued with the fixed
10000 m window regardless of the caller-requested radius (the powerline
query uses the caller's radius), and the returned distances are the raw
nearest distances — no post-filtering against the requested radius is
applied, so a computed minimum distance `m` is returned even when
`m ≥ radius`. -/
theorem getPower_fixedWindow_noCutoff {G : Type} (provider : Provider G)
    (dist : ℚ → ℚ → OverpassItem G → ℚ) (lat lng : ℚ) (radius : Int)
    (m mp : ℚ)
    (hm : ((getDataFromOverpass provider (substationQuerySpec lat lng)
        none).coords.map (dist lat lng)).min? = some m)
    (hmp : ((getDataFromOverpass provider
        (powerlineQuerySpec lat lng radius)
        none).coords.map (dist lat lng)).min? = some mp) :
    (getPower provider dist lat lng radius).2 =
      [substationQuerySpec lat lng, powerlineQuerySpec lat lng radius] ∧
    (substationQuerySpec lat lng).radius = 10000 ∧
    (getPower provider dist lat lng radius).1.nearest_substation_distance_m
      = m ∧
    (getPower provider dist lat lng radius).1.nearest_powerline_distance_m
      = mp := by
  refine ⟨rfl, rfl, ?_, ?_⟩
  · have hne : (getDataFromOverpass provider (substationQuerySpec lat lng)
        none).coords ≠ [] := by
      intro hnil
      rw [hnil] at hm
      simp at hm
    have hie : (getDataFromOverpass provider (substationQuerySpec lat lng)
        none).coords.isEmpty = false := by
      rcases hc : (getDataFromOverpass provider (substationQuerySpec lat lng)
          none).coords with _ | ⟨a, b⟩
      · exact absurd hc hne
      · rfl
    show (if (getDataFromOverpass provider (substationQuerySpec lat lng)
        none).coords.isEmpty then (0 : ℚ)
      else calculateNearestDistanceSync (dist lat lng)
        (getDataFromOverpass provider (substationQuerySpec lat lng)
          none).coords) = m
    rw [hie]
    simp only [Bool.false_eq_true, if_false]
    exact calculateNearest_eq_min (dist lat lng) _ m hm
  · have hne : (getDataFromOverpass provider
        (powerlineQuerySpec lat lng radius) none).coords ≠ [] := by
      intro hnil
      rw [hnil] at hmp
      simp at hmp
    have hie : (getDataFromOverpass provider
        (powerlineQuerySpec lat lng radius) none).coords.isEmpty = false := by
      rcases hc : (getDataFromOverpass provider
          (powerlineQuerySpec lat lng radius)
          none).coords with _ | ⟨a, b⟩
      · exact absurd hc hne
      · rfl
    show (if (getDataFromOverpass provider
        (powerlineQuerySpec lat lng radius)
        none).coords.isEmpty then (0 : ℚ)
      else calculateNearestDistanceSync (dist lat lng)
        (getDataFromOverpass provider (powerlineQuerySpec lat lng radius)
          none).coords) = mp
    rw [hie]
    simp only [Bool.false_eq_true, if_false]
    exact calculateNearest_eq_min (dist lat lng) _ mp hmp

/-- Witness for C5 (amended) at a concrete provider: one substation and one
powerline, both at planar distance 8000 m, requested radius 5000 m — both
raw distances come back unfiltered. -/
theorem getPower_fixedWindow_noCutoff_witness :
    (getPower (G := Unit)
      (fun _ => (QueryAttempt.ok [⟨(), []⟩], QueryAttempt.ok []))
      (fun _ _ _ => 8000) 1 2 5000).2 =
      [substationQuerySpec 1 2, powerlineQuerySpec 1 2 5000] ∧
    (substationQuerySpec 1 2).radius = 10000 ∧
    (getPower (G := Unit)
      (fun _ => (QueryAttempt.ok [⟨(), []⟩], QueryAttempt.ok []))
      (fun _ _ _ => 8000) 1 2 5000).1.nearest_substation_distance_m = 8000 ∧
    (getPower (G := Unit)
      (fun _ => (QueryAttempt.ok [⟨(), []⟩], QueryAttempt.ok []))
      (fun _ _ _ => 8000) 1 2 5000).1.nearest_powerline_distance_m = 8000 :=
  getPower_fixedWindow_noCutoff (G := Unit)
    (fun _ => (QueryAttempt.ok [⟨(), []⟩], QueryAttempt.ok []))
    (fun _ _ _ => 8000) 1 2 5000 8000 8000 (by decide) (by decide)

/-- C6: for every positive radius and any geodesic-destination collaborator
that moves north/south/east/west in the expected directions for a positive
travel distance (true on WGS84 away from the poles and the antimeridian,
the edge cases the code does not handle), the bounding box is properly
ordered; the kilometer distance handed to all four projections is clamped
to at most 5, so the box is the one computed for `min radius 5000` no
matter how large the requested radius is. -/
theorem boundingBox_ordered_clamped (dest : ℚ → ℚ × ℚ → ℚ → ℚ × ℚ)
    (lat lng r : ℚ) (hr : 0 < r)
    (hdest : ∀ km p, 0 < km →
      p.1 < (dest km p 0).1 ∧ (dest km p 180).1 < p.1 ∧
      p.2 < (dest km p 90).2 ∧ (dest km p 270).2 < p.2) :
    ((createBoundingBox dest lat lng r).min_lat
        < (createBoundingBox dest lat lng r).max_lat ∧
      (createBoundingBox dest lat lng r).min_lon
        < (createBoundingBox dest lat lng r).max_lon) ∧
    clampKmFromMeters r ≤ 5 ∧
    createBoundingBox dest lat lng r =
      createBoundingBox dest lat lng (min r 5000) := by
  have hkm : 0 < clampKmFromMeters r := by
    unfold clampKmFromMeters
    by_cases h : r / 1000 > 5
    · rw [if_pos h]
      norm_num
    · rw [if_neg h]
      positivity
  have hd := hdest (clampKmFromMeters r) (lat, lng) hkm
  refine ⟨⟨?_, ?_⟩, ?_, ?_⟩
  · exact lt_trans hd.2.1 hd.1
  · exact lt_trans hd.2.2.2 hd.2.2.1
  · unfold clampKmFromMeters
    by_cases h : r / 1000 > 5
    · rw [if_pos h]
    · rw [if_neg h]
      linarith [not_lt.mp h]
  · have hclamp : clampKmFromMeters r = clampKmFromMeters (min r 5000) := by
      unfold clampKmFromMeters
      by_cases h : r ≤ 5000
      · rw [min_eq_left h]
      · have h5 : min r 5000 = 5000 := min_eq_right (le_of_not_le h)
        rw [h5]
        have hgt : r / 1000 > 5 := by
          rw [gt_iff_lt, lt_div_iff₀ (by norm_num : (0 : ℚ) < 1000)]
          linarith [not_le.mp h]
        rw [if_pos hgt]
        norm_num
    unfold createBoundingBox
    rw [hclamp]

/-- Witness for C6 with a flat-earth destination model and a 7000 m radius
(clamped to 5 km). -/
theorem boundingBox_ordered_clamped_witness :
    ((createBoundingBox destFlat 10 20 7000).min_lat
        < (createBoundingBox destFlat 10 20 7000).max_lat ∧
      (createBoundingBox destFlat 10 20 7000).min_lon
        < (createBoundingBox destFlat 10 20 7000).max_lon) ∧
    clampKmFromMeters 7000 ≤ 5 ∧
    createBoundingBox destFlat 10 20 7000 =
      createBoundingBox destFlat 10 20 (min 7000 5000) :=
  boundingBox_ordered_clamped destFlat 10 20 7000 (by norm_num)
    (fun km p hkm => by
      refine ⟨?_, ?_, ?_, ?_⟩ <;> simp [destFlat] <;> linarith)

/-- Reduction of `_get_or_compute` on a live cache hit: fast path, producer
not invoked, lock not touched. -/
theorem getOrCompute_hit {V E : Type} {ttl : Int} {p : Nat} {label : String}
    {lat lng : ℚ} {radius : Int} {producer : Except E V} {now : Int}
    {c : CacheMap V} {v : V}
    (h : (cacheGet ttl now c (cacheKeyOf p label lat lng radius)).1 = some v) :
    getOrCompute ttl p label lat lng radius producer now c =
      ⟨Except.ok v, (cacheGet ttl now c (cacheKeyOf p label lat lng radius)).2,
        false, false⟩ := by
  simp only [getOrCompute]
  rw [h]

/-- Reduction of `_get_or_compute` on a miss with a succeeding producer:
both reads miss, the producer runs under the lock and its value is stored. -/
theorem getOrCompute_miss_ok {V E : Type} {ttl : Int} {p : Nat}
    {label : String} {lat lng : ℚ} {radius : Int} {now : Int}
    {c : CacheMap V} {v : V}
    (h : (cacheGet ttl now c (cacheKeyOf p label lat lng radius)).1 = none) :
    getOrCompute (E := E) ttl p label lat lng radius (Except.ok v) now c =
      ⟨Except.ok v,
        cacheSet ttl now
          (cacheGet ttl now
            (cacheGet ttl now c (cacheKeyOf p label lat lng radius)).2
            (cacheKeyOf p label lat lng radius)).2
          (cacheKeyOf p label lat lng radius) v,
        true, true⟩ := by
  simp only [getOrCompute]
  rw [h, cacheGet_none_stable h]

/-- Reduction of `_get_or_compute` on a miss with a failing producer: the
exception propagates and nothing is stored. -/
theorem getOrCompute_miss_error {V E : Type} {ttl : Int} {p : Nat}
    {label : String} {lat lng : ℚ} {radius : Int} {now : Int}
    {c : CacheMap V} {e : E}
    (h : (cacheGet ttl now c (cacheKeyOf p label lat lng radius)).1 = none) :
    getOrCompute (V := V) ttl p label lat lng radius (Except.error e) now c =
      ⟨Except.error e,
        (cacheGet ttl now
          (cacheGet ttl now c (cacheKeyOf p label lat lng radius)).2
          (cacheKeyOf p label lat lng radius)).2,
        true, true⟩ := by
  simp only [getOrCompute]
  rw [h, cacheGet_none_stable h]

/-- A `_cache_get` of a live entry hits and leaves the cache unchanged. -/
theorem cacheGet_live {V : Type} {ttl now : Int} {c : CacheMap V}
    {k : CacheKey} {e : Int} {v : V} (httl : 0 < ttl)
    (hk : c k = some (e, v)) (hlive : ¬ e < now) :
    (cacheGet ttl now c k).1 = some v ∧ (cacheGet ttl now c k).2 = c := by
  unfold cacheGet
  rw [if_neg (by omega : ¬ ttl ≤ 0), hk]
  constructor <;> simp [hlive]

/-- A `_cache_get` of an expired entry misses and pops the entry. -/
theorem cacheGet_expired {V : Type} {ttl now : Int} {c : CacheMap V}
    {k : CacheKey} {e : Int} {v : V} (httl : 0 < ttl)
    (hk : c k = some (e, v)) (hexp : e < now) :
    (cacheGet ttl now c k).1 = none ∧
    (cacheGet ttl now c k).2 = Function.update c k none := by
  unfold cacheGet
  rw [if_neg (by omega : ¬ ttl ≤ 0), hk]
  constructor <;> simp [hexp]

/-- After a miss with no store, a later lookup of the same key still misses
(the key held nothing, or only an expired entry that got popped). -/
theorem cacheGet_miss_after_miss {V : Type} {ttl now : Int}
    {c : CacheMap V} {k : CacheKey} (now2 : Int)
    (h : (cacheGet ttl now c k).1 = none) :
    (cacheGet ttl now2
      (cacheGet ttl now (cacheGet ttl now c k).2 k).2 k).1 = none := by
  by_cases httl : ttl ≤ 0
  · unfold cacheGet
    rw [if_pos httl]
  · cases hck : c k with
    | none =>
        have h2 : (cacheGet ttl now c k).2 = c := by
          unfold cacheGet
          rw [if_neg httl, hck]
        rw [h2, h2]
        unfold cacheGet
        rw [if_neg httl, hck]
    | some ev =>
        rcases ev with ⟨e, v⟩
        have httl2 : (0 : Int) < ttl := by omega
        have hexp : e < now := by
          by_contra hlive
          have := (cacheGet_live httl2 hck hlive).1
          rw [this] at h
          cases h
        have h2 := (cacheGet_expired httl2 hck hexp).2
        rw [h2]
        have hupd : Function.update c k none k = none := Function.update_same k none c
        have h3 : (cacheGet ttl now (Function.update c k none) k).2 =
            Function.update c k none := by
          unfold cacheGet
          rw [if_neg httl, hupd]
        rw [h3]
        unfold cacheGet
        rw [if_neg httl, hupd]

/-- C2: with a positive TTL, after a first call stores a value, a second
sequential call with the same label, coordinates rounding to the same
values at the configured precision, and the same radius (i) before the
stored expiry returns the cached value with the producer not invoked and
the per-key lock never acquired, and (ii) after the stored expiry invokes
the producer again and overwrites the entry with a fresh expiry stamp. -/
theorem cacheTTL_expiry {V E : Type} (ttl : Int) (p : Nat) (label : String)
    (lat1 lng1 lat2 lng2 : ℚ) (radius : Int) (now1 now2 : Int)
    (c : CacheMap V) (v : V) (producer2 : Except E V)
    (httl : 0 < ttl)
    (hmiss : (cacheGet ttl now1 c
      (cacheKeyOf p label lat1 lng1 radius)).1 = none)
    (hlat : roundDec p lat2 = roundDec p lat1)
    (hlng : roundDec p lng2 = roundDec p lng1) :
    ((getOrCompute (E := E) ttl p label lat1 lng1 radius (Except.ok v) now1
        c).cache (cacheKeyOf p label lat1 lng1 radius)
      = some (now1 + ttl, v)) ∧
    (now2 < now1 + ttl →
      (getOrCompute ttl p label lat2 lng2 radius producer2 now2
        (getOrCompute (E := E) ttl p label lat1 lng1 radius (Except.ok v)
          now1 c).cache).producerInvoked = false ∧
      (getOrCompute ttl p label lat2 lng2 radius producer2 now2
        (getOrCompute (E := E) ttl p label lat1 lng1 radius (Except.ok v)
          now1 c).cache).lockAcquired = false ∧
      (getOrCompute ttl p label lat2 lng2 radius producer2 now2
        (getOrCompute (E := E) ttl p label lat1 lng1 radius (Except.ok v)
          now1 c).cache).result = Except.ok v) ∧
    (now1 + ttl < now2 →
      (getOrCompute ttl p label lat2 lng2 radius producer2 now2
        (getOrCompute (E := E) ttl p label lat1 lng1 radius (Except.ok v)
          now1 c).cache).producerInvoked = true ∧
      (∀ v2, producer2 = Except.ok v2 →
        (getOrCompute ttl p label lat2 lng2 radius producer2 now2
          (getOrCompute (E := E) ttl p label lat1 lng1 radius (Except.ok v)
            now1 c).cache).cache (cacheKeyOf p label lat1 lng1 radius)
          = some (now2 + ttl, v2))) := by
  have hkey : cacheKeyOf p label lat2 lng2 radius =
      cacheKeyOf p label lat1 lng1 radius := by
    unfold cacheKeyOf
    rw [hlat, hlng]
  have hrun1 := getOrCompute_miss_ok (E := E) (v := v) hmiss
  have hstore : (getOrCompute (E := E) ttl p label lat1 lng1 radius
      (Except.ok v) now1 c).cache (cacheKeyOf p label lat1 lng1 radius)
      = some (now1 + ttl, v) := by
    rw [hrun1]
    show cacheSet ttl now1 _ _ v _ = _
    unfold cacheSet
    rw [if_neg (by omega : ¬ ttl ≤ 0)]
    exact Function.update_same _ _ _
  refine ⟨hstore, ?_, ?_⟩
  · intro hlt
    have hhit : (cacheGet ttl now2
        (getOrCompute (E := E) ttl p label lat1 lng1 radius (Except.ok v)
          now1 c).cache (cacheKeyOf p label lat2 lng2 radius)).1 = some v := by
      rw [hkey]
      exact (cacheGet_live httl hstore (by omega)).1
    rw [getOrCompute_hit hhit]
    exact ⟨rfl, rfl, rfl⟩
  · intro hgt
    have hmiss2 : (cacheGet ttl now2
        (getOrCompute (E := E) ttl p label lat1 lng1 radius (Except.ok v)
          now1 c).cache (cacheKeyOf p label lat2 lng2 radius)).1 = none := by
      rw [hkey]
      exact (cacheGet_expired httl hstore (by omega)).1
    constructor
    · cases producer2 with
      | error e2 => rw [getOrCompute_miss_error hmiss2]
      | ok v2 => rw [getOrCompute_miss_ok hmiss2]
    · intro v2 hv2
      subst hv2
      rw [getOrCompute_miss_ok hmiss2]
      show cacheSet ttl now2 _ _ v2 _ = _
      unfold cacheSet
      rw [if_neg (by omega : ¬ ttl ≤ 0), ← hkey]
      exact Function.update_same _ _ _

/-- Witness for C2 at a concrete key: first call at t=0 stores with expiry
600; a repeat at t=10 is served from cache with no lock and no producer; a
repeat at t=1000 recomputes and overwrites. -/
theorem cacheTTL_expiry_witness :
    ((getOrCompute (E := Unit) 600 6 "power" 0 0 5000 (Except.ok (42 : ℕ)) 0
        (fun _ => none)).cache (cacheKeyOf 6 "power" 0 0 5000)
      = some (0 + 600, 42)) ∧
    ((getOrCompute (E := Unit) 600 6 "power" 0 0 5000 (Except.ok (43 : ℕ)) 10
        (getOrCompute (E := Unit) 600 6 "power" 0 0 5000 (Except.ok (42 : ℕ))
          0 (fun _ => none)).cache).producerInvoked = false) ∧
    ((getOrCompute (E := Unit) 600 6 "power" 0 0 5000 (Except.ok (43 : ℕ)) 10
        (getOrCompute (E := Unit) 600 6 "power" 0 0 5000 (Except.ok (42 : ℕ))
          0 (fun _ => none)).cache).lockAcquired = false) ∧
    ((getOrCompute (E := Unit) 600 6 "power" 0 0 5000 (Except.ok (43 : ℕ)) 10
        (getOrCompute (E := Unit) 600 6 "power" 0 0 5000 (Except.ok (42 : ℕ))
          0 (fun _ => none)).cache).result = Except.ok 42) ∧
    ((getOrCompute (E := Unit) 600 6 "power" 0 0 5000 (Except.ok (43 : ℕ)) 1000
        (getOrCompute (E := Unit) 600 6 "power" 0 0 5000 (Except.ok (42 : ℕ))
          0 (fun _ => none)).cache).producerInvoked = true) ∧
    ((getOrCompute (E := Unit) 600 6 "power" 0 0 5000 (Except.ok (43 : ℕ)) 1000
        (getOrCompute (E := Unit) 600 6 "power" 0 0 5000 (Except.ok (42 : ℕ))
          0 (fun _ => none)).cache).cache (cacheKeyOf 6 "power" 0 0 5000)
      = some (1000 + 600, 43)) :=
  ⟨(cacheTTL_expiry 600 6 "power" 0 0 0 0 5000 0 10 (fun _ => none) 42
      (Except.ok 43) (by decide) (by decide) rfl rfl).1,
   ((cacheTTL_expiry 600 6 "power" 0 0 0 0 5000 0 10 (fun _ => none) 42
      (Except.ok 43) (by decide) (by decide) rfl rfl).2.1 (by decide)).1,
   ((cacheTTL_expiry 600 6 "power" 0 0 0 0 5000 0 10 (fun _ => none) 42
      (Except.ok 43) (by decide) (by decide) rfl rfl).2.1 (by decide)).2.1,
   ((cacheTTL_expiry 600 6 "power" 0 0 0 0 5000 0 10 (fun _ => none) 42
      (Except.ok 43) (by decide) (by decide) rfl rfl).2.1 (by decide)).2.2,
   ((cacheTTL_expiry 600 6 "power" 0 0 0 0 5000 0 1000 (fun _ => none) 42
      (Except.ok 43) (by decide) (by decide) rfl rfl).2.2 (by decide)).1,
   ((cacheTTL_expiry 600 6 "power" 0 0 0 0 5000 0 1000 (fun _ => none) 42
      (Except.ok 43) (by decide) (by decide) rfl rfl).2.2 (by decide)).2 43
      rfl⟩

/-- C9 as frozen is falsified on its parenthetical "the cache state for the
key is unchanged by the failed call": when the key holds an *expired* entry,
`_cache_get` pops it before the producer runs, so the failed call leaves the
key empty rather than unchanged. -/
theorem producerFailure_counterexample :
    ((fun _ => some ((0 : Int), (7 : ℕ)) : CacheMap ℕ)
        (cacheKeyOf 6 "power" 0 0 5000) = some (0, 7)) ∧
    ((getOrCompute 600 6 "power" 0 0 5000 (Except.error ()) 1000
        (fun _ => some ((0 : Int), (7 : ℕ)))).cache
      (cacheKeyOf 6 "power" 0 0 5000) = none) ∧
    ((none : Option (Int × ℕ)) ≠ some (0, 7)) := by
  refine ⟨rfl, ?_, by decide⟩
  have hk : (fun _ => some ((0 : Int), (7 : ℕ)) : CacheMap ℕ)
      (cacheKeyOf 6 "power" 0 0 5000) = some (0, 7) := rfl
  have hget : (cacheGet 600 1000
        (fun _ => some ((0 : Int), (7 : ℕ)) : CacheMap ℕ)
        (cacheKeyOf 6 "power" 0 0 5000)).1 = none ∧
      (cacheGet 600 1000
        (fun _ => some ((0 : Int), (7 : ℕ)) : CacheMap ℕ)
        (cacheKeyOf 6 "power" 0 0 5000)).2 =
      Function.update
        (fun _ => some ((0 : Int), (7 : ℕ)) : CacheMap ℕ)
        (cacheKeyOf 6 "power" 0 0 5000) none :=
    cacheGet_expired (by decide) hk (by decide)
  rw [getOrCompute_miss_error hget.1]
  show (cacheGet 600 1000 (cacheGet 600 1000 _ _).2 _).2 _ = none
  rw [hget.2]
  have hupd : Function.update
      (fun _ => some ((0 : Int), (7 : ℕ)) : CacheMap ℕ)
      (cacheKeyOf 6 "power" 0 0 5000) none
      (cacheKeyOf 6 "power" 0 0 5000) = none :=
    Function.update_same _ _ _
  have h3 : (cacheGet 600 1000
      (Function.update (fun _ => some ((0 : Int), (7 : ℕ)) : CacheMap ℕ)
        (cacheKeyOf 6 "power" 0 0 5000) none)
      (cacheKeyOf 6 "power" 0 0 5000)).2 =
      Function.update (fun _ => some ((0 : Int), (7 : ℕ)) : CacheMap ℕ)
        (cacheKeyOf 6 "power" 0 0 5000) none := by
    unfold cacheGet
    rw [if_neg (by decide : ¬ (600 : Int) ≤ 0), hupd]
  rw [h3]
  exact hupd

/-- C9 amended: if the producer raises, `_get_or_compute` propagates the
exception, stores nothing for the key (the only possible change to the
key's state is the lazy eviction of an already-expired entry during the
lookup), and a subsequent call for the same key invokes the producer
again. -/
theorem producerFailure_no_store {V E : Type} (ttl : Int) (p : Nat)
    (label : String) (lat lng : ℚ) (radius : Int) (now1 now2 : Int)
    (c : CacheMap V) (e : E) (producer2 : Except E V)
    (hmiss : (cacheGet ttl now1 c
      (cacheKeyOf p label lat lng radius)).1 = none) :
    ((getOrCompute ttl p label lat lng radius (Except.error e) now1
        c).result = Except.error e) ∧
    ((getOrCompute ttl p label lat lng radius (Except.error e) now1
        c).producerInvoked = true) ∧
    ((getOrCompute ttl p label lat lng radius (Except.error e) now1 c).cache
        (cacheKeyOf p label lat lng radius)
        = c (cacheKeyOf p label lat lng radius) ∨
      (∃ exp v0, c (cacheKeyOf p label lat lng radius) = some (exp, v0) ∧
        exp < now1 ∧
        (getOrCompute ttl p label lat lng radius (Except.error e) now1
          c).cache (cacheKeyOf p label lat lng radius) = none)) ∧
    ((getOrCompute ttl p label lat lng radius producer2 now2
        (getOrCompute ttl p label lat lng radius (Except.error e) now1
          c).cache).producerInvoked = true) := by
  have hrun1 := getOrCompute_miss_error (e := e) hmiss
  have hmiss2 := cacheGet_miss_after_miss now2 hmiss
  refine ⟨by rw [hrun1], by rw [hrun1], ?_, ?_⟩
  · by_cases httl : ttl ≤ 0
    · left
      have hsame : ∀ c0 : CacheMap V, (cacheGet ttl now1 c0
          (cacheKeyOf p label lat lng radius)).2 = c0 := by
        intro c0
        unfold cacheGet
        rw [if_pos httl]
      rw [hrun1]
      show (cacheGet ttl now1 (cacheGet ttl now1 c _).2 _).2 _ = _
      rw [hsame, hsame]
    · cases hck : c (cacheKeyOf p label lat lng radius) with
      | none =>
          left
          have hsame : (cacheGet ttl now1 c
              (cacheKeyOf p label lat lng radius)).2 = c := by
            unfold cacheGet
            rw [if_neg httl, hck]
          rw [hrun1]
          show (cacheGet ttl now1 (cacheGet ttl now1 c _).2 _).2 _ = _
          rw [hsame, hsame, hck]
      | some ev =>
          rcases ev with ⟨exp, v0⟩
          have httl2 : (0 : Int) < ttl := by omega
          have hexp : exp < now1 := by
            by_contra hlive
            have := (cacheGet_live httl2 hck hlive).1
            rw [this] at hmiss
            cases hmiss
          refine Or.inr ⟨exp, v0, rfl, hexp, ?_⟩
          rw [hrun1]
          show (cacheGet ttl now1 (cacheGet ttl now1 c _).2 _).2 _ = _
          rw [(cacheGet_expired httl2 hck hexp).2]
          have hupd : Function.update c (cacheKeyOf p label lat lng radius)
              none (cacheKeyOf p label lat lng radius) = none :=
            Function.update_same _ _ _
          have h3 : (cacheGet ttl now1
              (Function.update c (cacheKeyOf p label lat lng radius) none)
              (cacheKeyOf p label lat lng radius)).2 =
              Function.update c (cacheKeyOf p label lat lng radius) none := by
            unfold cacheGet
            rw [if_neg httl, hupd]
          rw [h3]
          exact hupd
  · have hmissR : (cacheGet ttl now2
        (getOrCompute ttl p label lat lng radius (Except.error e) now1
          c).cache (cacheKeyOf p label lat lng radius)).1 = none := by
      rw [hrun1]
      exact hmiss2
    cases producer2 with
    | error e2 => rw [getOrCompute_miss_error hmissR]
    | ok v2 => rw [getOrCompute_miss_ok hmissR]

/-- Witness for C9 (amended) on an empty cache: the error propagates, no
entry is stored, and the follow-up call runs its producer. -/
theorem producerFailure_no_store_witness :
    ((getOrCompute 600 6 "power" 0 0 5000 (Except.error ()) 0
        (fun _ => none : CacheMap ℕ)).result = Except.error ()) ∧
    ((getOrCompute 600 6 "power" 0 0 5000 (Except.error ()) 0
        (fun _ => none : CacheMap ℕ)).producerInvoked = true) ∧
    ((getOrCompute (E := Unit) 600 6 "power" 0 0 5000 (Except.ok (9 : ℕ)) 5
        (getOrCompute 600 6 "power" 0 0 5000 (Except.error ()) 0
          (fun _ => none : CacheMap ℕ)).cache).producerInvoked = true) :=
  ⟨(producerFailure_no_store 600 6 "power" 0 0 5000 0 5 (fun _ => none) ()
      (Except.ok 9) (by decide)).1,
   (producerFailure_no_store 600 6 "power" 0 0 5000 0 5 (fun _ => none) ()
      (Except.ok 9) (by decide)).2.1,
   (producerFailure_no_store 600 6 "power" 0 0 5000 0 5 (fun _ => none) ()
      (Except.ok 9) (by decide)).2.2.2⟩

/-- Preservation: every atomic step of the `_get_or_compute` interleaving
semantics keeps the single-flight invariant, provided caching is enabled. -/
theorem sfInv_preserved {V : Type} {K : Nat} {ttl now : Int} {k : CacheKey}
    {vs : Nat → V} (httl : 0 < ttl) {s t : SFState V K}
    (hstep : SFStep ttl now k vs s t) (hinv : SFInv ttl now k vs s) :
    SFInv ttl now k vs t := by
  cases hstep with
  | startHit i v hph hget =>
      rcases hinv with ⟨_, hA2, _, _⟩ | ⟨_, _, hB3, _⟩ | ⟨hC1, hC2, hC3, hC4⟩
      · simp [hA2] at hget
      · simp [hB3] at hget
      · have hv : vs 0 = v := Option.some.inj (hC3.symm.trans hget)
        refine Or.inr (Or.inr ⟨hC1, hC2, ?_, ?_⟩)
        · show (cacheGet ttl now (cacheGet ttl now s.cache k).2 k).1 =
            some (vs 0)
          rw [cacheGet_some_eq hget]
          exact hC3
        · intro i2
          by_cases hii : i2 = i
          · subst hii
            refine Or.inr (Or.inr ?_)
            show Function.update s.callers i2 (CallerPhase.done v) i2 = _
            rw [Function.update_same, hv]
          · simp only [Function.update_noteq hii]
            exact hC4 i2
  | startWait i hph hget hlock =>
      rcases hinv with ⟨_, _, hA3, _⟩ | ⟨hB1, hB2, hB3, j, hj, hothers⟩ |
        ⟨_, _, hC3, _⟩
      · simp [hA3] at hlock
      · have hij : i ≠ j := by
          intro heq
          rw [heq, hj] at hph
          simp at hph
        refine Or.inr (Or.inl ⟨hB1, hB2, cacheGet_none_stable hget, j, ?_, ?_⟩)
        · show Function.update s.callers i CallerPhase.waiting j = _
          rw [Function.update_noteq (Ne.symm hij)]
          exact hj
        · intro i2 hi2
          by_cases hii : i2 = i
          · subst hii
            refine Or.inr ?_
            show Function.update s.callers i2 CallerPhase.waiting i2 = _
            rw [Function.update_same]
          · simp only [Function.update_noteq hii]
            exact hothers i2 hi2
      · simp [hC3] at hget
  | startProduce i hph hget hlock hget2 =>
      rcases hinv with ⟨hA1, hA2, hA3, hA4⟩ | ⟨_, hB2, _, _, _⟩ |
        ⟨_, _, hC3, _⟩
      · refine Or.inr (Or.inl ⟨?_, ?_, cacheGet_none_stable hget2, i, ?_, ?_⟩)
        · show s.prodCount + 1 = 1
          rw [hA1]
        · show Function.update s.locked k true k = true
          rw [Function.update_same]
        · show Function.update s.callers i
            (CallerPhase.producing (vs s.prodCount)) i = _
          rw [Function.update_same, hA1]
        · intro i2 hi2
          show Function.update s.callers i
            (CallerPhase.producing (vs s.prodCount)) i2 = _ ∨ _
          rw [Function.update_noteq hi2]
          exact Or.inl (hA4 i2)
      · simp [hB2] at hlock
      · simp [hC3] at hget
  | waitHit i v hph hlock hget =>
      rcases hinv with ⟨_, _, _, hA4⟩ | ⟨_, hB2, _, _, _⟩ |
        ⟨hC1, hC2, hC3, hC4⟩
      · rw [hA4 i] at hph
        simp at hph
      · simp [hB2] at hlock
      · have hv : vs 0 = v := Option.some.inj (hC3.symm.trans hget)
        refine Or.inr (Or.inr ⟨hC1, hC2, ?_, ?_⟩)
        · show (cacheGet ttl now (cacheGet ttl now s.cache k).2 k).1 =
            some (vs 0)
          rw [cacheGet_some_eq hget]
          exact hC3
        · intro i2
          by_cases hii : i2 = i
          · subst hii
            refine Or.inr (Or.inr ?_)
            show Function.update s.callers i2 (CallerPhase.done v) i2 = _
            rw [Function.update_same, hv]
          · simp only [Function.update_noteq hii]
            exact hC4 i2
  | waitProduce i hph hlock hget =>
      rcases hinv with ⟨_, _, _, hA4⟩ | ⟨_, hB2, _, _, _⟩ | ⟨_, _, hC3, _⟩
      · rw [hA4 i] at hph
        simp at hph
      · simp [hB2] at hlock
      · simp [hC3] at hget
  | produceDone i v hph =>
      rcases hinv with ⟨_, _, _, hA4⟩ | ⟨hB1, hB2, hB3, j, hj, hothers⟩ |
        ⟨_, _, _, hC4⟩
      · rw [hA4 i] at hph
        simp at hph
      · have hij : i = j := by
          by_contra hne
          rcases hothers i hne with h | h <;> rw [h] at hph <;> simp at hph
        subst hij
        have hv : v = vs 0 := CallerPhase.producing.inj (hph.symm.trans hj)
        refine Or.inr (Or.inr ⟨hB1, ?_, ?_, ?_⟩)
        · show Function.update s.locked k false k = false
          rw [Function.update_same]
        · show (cacheGet ttl now (cacheSet ttl now s.cache k v) k).1 =
            some (vs 0)
          rw [cacheGet_cacheSet_same httl, hv]
        · intro i2
          by_cases hii : i2 = i
          · subst hii
            refine Or.inr (Or.inr ?_)
            show Function.update s.callers i2 (CallerPhase.done v) i2 = _
            rw [Function.update_same, hv]
          · simp only [Function.update_noteq hii]
            rcases hothers i2 hii with h | h
            · exact Or.inl h
            · exact Or.inr (Or.inl h)
      · rcases hC4 i with h | h | h <;> rw [h] at hph <;> simp at hph

/-- C1: under the interleaving semantics of `_get_or_compute`, with caching
enabled (positive TTL — the deployed default is 600) and no live cache
entry at the key, every execution in which all K ≥ 1 concurrent callers of
the same domain query complete has invoked the producer exactly once, and
every caller returned successfully with the value of that single
invocation. -/
theorem singleFlight_exactlyOnce {V : Type} {K : Nat} (ttl now : Int)
    (k : CacheKey) (vs : Nat → V) (c0 : CacheMap V) (l0 : CacheKey → Bool)
    (s : SFState V K)
    (httl : 0 < ttl) (hK : 0 < K)
    (hmiss : (cacheGet ttl now c0 k).1 = none) (hl0 : l0 k = false)
    (hreach : SFReach ttl now k vs (sfInit c0 l0 K) s)
    (hdone : ∀ i, ∃ v, s.callers i = CallerPhase.done v) :
    s.prodCount = 1 ∧ ∀ i, s.callers i = CallerPhase.done (vs 0) := by
  have hinv : SFInv ttl now k vs s := by
    clear hdone
    induction hreach with
    | refl => exact Or.inl ⟨rfl, hmiss, hl0, fun i => rfl⟩
    | tail hs hstep ih => exact sfInv_preserved httl hstep ih
  rcases hinv with ⟨_, _, _, hA4⟩ | ⟨_, _, _, j, hj, _⟩ | ⟨hC1, _, _, hC4⟩
  · obtain ⟨v, hv⟩ := hdone ⟨0, hK⟩
    rw [hA4 ⟨0, hK⟩] at hv
    simp at hv
  · obtain ⟨v, hv⟩ := hdone j
    rw [hj] at hv
    simp at hv
  · refine ⟨hC1, fun i => ?_⟩
    obtain ⟨v, hv⟩ := hdone i
    rcases hC4 i with h | h | h
    · rw [h] at hv
      simp at hv
    · rw [h] at hv
      simp at hv
    · exact h

/-- Witness for C1: a one-caller run through the explicit trace
start-produce / produce-done ends with one producer invocation and the
produced value returned. -/
theorem singleFlight_exactlyOnce_witness :
    sfWFinal.prodCount = 1 ∧
    sfWFinal.callers 0 = CallerPhase.done 42 := by
  have step1 : SFStep 600 0 sfWKey (fun _ => 42) sfWInit sfWMid :=
    SFStep.startProduce sfWInit 0 rfl rfl rfl rfl
  have step2 : SFStep 600 0 sfWKey (fun _ => 42) sfWMid sfWFinal :=
    SFStep.produceDone sfWMid 0 42 rfl
  have hdone : ∀ i : Fin 1, ∃ v, sfWFinal.callers i = CallerPhase.done v := by
    intro i
    refine ⟨42, ?_⟩
    rw [Subsingleton.elim i 0]
    rfl
  have h := singleFlight_exactlyOnce (K := 1) 600 0 sfWKey (fun _ => 42)
    (fun _ => none) (fun _ => false) sfWFinal (by decide) (by decide) rfl rfl
    (Relation.ReflTransGen.tail (Relation.ReflTransGen.single step1) step2)
    hdone
  exact ⟨h.1, h.2 0⟩

end GeoSvc
